import Mathlib

/-!
Verification of the AgencyVault service worker (src/app/static/sw.js) and the
shell launch scripts (src/start.sh, src/unnamed/part_000, src/unnamed/part_001).

The service worker registers three listeners:

  self.addEventListener("install", (event) => { self.skipWaiting(); });
  self.addEventListener("activate", (event) => { event.waitUntil(self.clients.claim()); });
  self.addEventListener("fetch", (event) => {
    event.respondWith(fetch(event.request).catch(() => caches.match(event.request)));
  });

We embed the fetch routing as a pure function over the settled result of the
live network fetch, the contents of Cache Storage and the intercepted request,
the install and activate listeners as traces of service-worker API calls, and
each launch script as a function from the process environment to the launch
command it executes.
-/

namespace AgencyVault

/-- An intercepted network request: the request descriptor Cache Storage keys on
(method and URL). -/
structure Request where
  method : String
  url : String
deriving DecidableEq, Repr

/-- A network response: status code and body. Error-status responses (404, 500)
are ordinary values of this type, distinct from a rejected fetch. -/
structure Response where
  status : Nat
  body : String
deriving DecidableEq, Repr

/-- Cache Storage contents: stored request/response pairs. The worker only reads
this store. -/
abbrev CacheStorage := List (Request × Response)

/-- Settled result of the live network fetch of event.request: the promise either
resolves with a response (any status, including 404 or 500) or rejects with an
error value (connectivity absence, abort, ...). -/
inductive NetResult where
  | resolved (r : Response)
  | rejected (e : String)
deriving DecidableEq, Repr

/-- Semantics of caches.match(event.request): resolves with a stored response
matching the request, or with undefined (here: none) when no entry matches; a
miss is not a rejection. -/
def cachesMatch (cache : CacheStorage) (req : Request) : Option Response :=
  (cache.find? (fun p => p.1 == req)).map (fun p => p.2)

/-- Settled state of the promise handed to event.respondWith; resolved none
models resolving with undefined. -/
inductive PromiseOutcome where
  | resolved (v : Option Response)
  | rejected (e : String)
deriving DecidableEq, Repr

/-- The promise the fetch listener builds and passes to event.respondWith:
fetch(event.request).catch(() => caches.match(event.request)). When the live
fetch resolves, the catch handler never runs and the chain resolves with the
live response. When the live fetch rejects, the catch handler runs, its
argument (the rejection reason) is ignored, and the chain resolves with the
cache lookup result, which is the matched response or undefined. -/
def respondWithPromise (net : NetResult) (cache : CacheStorage) (req : Request) :
    PromiseOutcome :=
  match net with
  | NetResult.resolved r => PromiseOutcome.resolved (some r)
  | NetResult.rejected _ => PromiseOutcome.resolved (cachesMatch cache req)

/-- Outcome of the intercepted request as seen by whatever initiated it. -/
inductive FetchOutcome where
  | response (r : Response)
  | failed
deriving DecidableEq, Repr

/-- Browser semantics of event.respondWith: a promise that resolves with a
response delivers that response to the caller; a promise that resolves with
undefined, or rejects, makes the intercepted request fail (a network error to
the caller). -/
def respondWith (p : PromiseOutcome) : FetchOutcome :=
  match p with
  | PromiseOutcome.resolved (some r) => FetchOutcome.response r
  | PromiseOutcome.resolved none => FetchOutcome.failed
  | PromiseOutcome.rejected _ => FetchOutcome.failed

/-- The fetch event listener: the caller-visible outcome of one intercepted
request, given the settled live-fetch result and the cache contents. -/
def handleFetch (net : NetResult) (cache : CacheStorage) (req : Request) :
    FetchOutcome :=
  respondWith (respondWithPromise net cache req)

/-- The same routing, additionally reporting whether caches.match was invoked:
the catch handler, and with it the cache lookup, runs only when the live fetch
rejects. -/
def handleFetchConsult (net : NetResult) (cache : CacheStorage) (req : Request) :
    FetchOutcome × Bool :=
  match net with
  | NetResult.resolved r => (respondWith (PromiseOutcome.resolved (some r)), false)
  | NetResult.rejected _ =>
      (respondWith (PromiseOutcome.resolved (cachesMatch cache req)), true)

/-- One fetch event with Cache Storage threaded as state: the listener body
contains no cache.put, cache.delete or caches.open call, so the cache after the
event is the cache the event started from. -/
def fetchEventStep (net : NetResult) (cache : CacheStorage) (req : Request) :
    FetchOutcome × CacheStorage :=
  (handleFetch net cache req, cache)

/-- A run of the active worker over a sequence of intercepted requests,
threading the cache state from each event into the next. The network behavior
net gives the settled live-fetch result for each request. -/
def processRequests (net : Request → NetResult) (cache : CacheStorage) :
    List Request → List FetchOutcome × CacheStorage
  | [] => ([], cache)
  | r :: rs =>
    let step := fetchEventStep (net r) cache r
    let rest := processRequests net step.2 rs
    (step.1 :: rest.1, rest.2)

/-- A delivered lifecycle event (install or activate occurrence). -/
structure SWEvent where
  eventId : Nat
deriving DecidableEq, Repr

/-- Service-worker API calls the lifecycle listeners can perform. -/
inductive SWApiCall where
  | skipWaiting
  | claimClients
deriving DecidableEq, Repr

/-- The install listener body is exactly self.skipWaiting(): the trace of API
calls one delivery of the install event performs. -/
def installHandler (_event : SWEvent) : List SWApiCall :=
  [SWApiCall.skipWaiting]

/-- The activate listener body is event.waitUntil(self.clients.claim()): the
operations whose promises one delivery of the activate event passes to
event.waitUntil. -/
def activateHandler (_event : SWEvent) : List SWApiCall :=
  [SWApiCall.claimClients]

/-- Lifecycle semantics of ExtendableEvent.waitUntil: activation is complete at
time t only if every operation the activate listener passed to waitUntil has
settled by time t. -/
def activationCompleteAt (settleTime : SWApiCall → Nat) (e : SWEvent) (t : Nat) :
    Prop :=
  ∀ c ∈ activateHandler e, settleTime c ≤ t

/-- The process environment a launch script reads: the PORT and WORKER
variables (none when unset) and every other variable. -/
structure ShellEnv where
  port : Option String
  worker : Option String
  others : List (String × String)
deriving DecidableEq, Repr

/-- Bash default expansion with a colon, as in a dollar-brace VAR:-d expansion:
the default is used when the variable is unset or empty. -/
def bashDefault (v : Option String) (d : String) : String :=
  match v with
  | none => d
  | some s => if s = "" then d else s

/-- The command a launch script finally executes. -/
inductive LaunchCmd where
  | uvicorn (appModule : String) (appDir : Option String) (host : String) (port : String)
  | pythonInline (code : String)
deriving DecidableEq, Repr

/-- What a launch script does: the environment variables it exports and the
process it launches. -/
structure LaunchSpec where
  exports : List (String × String)
  command : LaunchCmd
deriving DecidableEq, Repr

/-- src/start.sh: exports PYTHONUNBUFFERED=1; when WORKER (default 0) equals 1,
runs the executor loop inline in python, otherwise launches uvicorn on PORT
(default 10000). -/
def startSh (env : ShellEnv) : LaunchSpec :=
  { exports := [("PYTHONUNBUFFERED", "1")]
    command :=
      if bashDefault env.worker "0" = "1" then
        LaunchCmd.pythonInline
          "from agencyvault_app.executor import run_executor_loop; run_executor_loop()"
      else
        LaunchCmd.uvicorn "agencyvault_app.main:app" none "0.0.0.0"
          (bashDefault env.port "10000") }

/-- src/unnamed/part_000: exports PYTHONPATH and execs uvicorn
agencyvault_app.main:app on PORT (default 8000). -/
def launchScriptA (env : ShellEnv) : LaunchSpec :=
  { exports := [("PYTHONPATH", "/opt/render/project/src")]
    command :=
      LaunchCmd.uvicorn "agencyvault_app.main:app" none "0.0.0.0"
        (bashDefault env.port "8000") }

/-- src/unnamed/part_001, first script: exports PYTHONPATH and execs uvicorn
main:app with an explicit app dir on PORT (default 8000). -/
def launchScriptB (env : ShellEnv) : LaunchSpec :=
  { exports := [("PYTHONPATH", "/opt/render/project/src")]
    command :=
      LaunchCmd.uvicorn "main:app" (some "/opt/render/project/src") "0.0.0.0"
        (bashDefault env.port "8000") }

/-- src/unnamed/part_001, second script: execs uvicorn agencyvault_app.main:app
on PORT (default 8000), exporting nothing. -/
def launchScriptC (env : ShellEnv) : LaunchSpec :=
  { exports := []
    command :=
      LaunchCmd.uvicorn "agencyvault_app.main:app" none "0.0.0.0"
        (bashDefault env.port "8000") }

/-- Helper: a run is the per-request pure routing function mapped over the
request sequence, and the cache state comes out unchanged. -/
theorem processRequests_eq (net : Request → NetResult) (cache : CacheStorage)
    (rs : List Request) :
    processRequests net cache rs
      = (rs.map (fun r => handleFetch (net r) cache r), cache) := by
  induction rs with
  | nil => rfl
  | cons r rs ih => simp [processRequests, fetchEventStep, ih]

/-- C1: when the live fetch resolves (any response, including error statuses
such as 404 or 500), the fetch listener returns exactly that live response to
the caller, and the cache is never consulted. -/
theorem live_fetch_served_verbatim (r : Response) (cache : CacheStorage)
    (req : Request) :
    handleFetch (NetResult.resolved r) cache req = FetchOutcome.response r
      ∧ (handleFetchConsult (NetResult.resolved r) cache req).2 = false :=
  ⟨rfl, rfl⟩

/-- C2: when the live fetch rejects and Cache Storage contains a matching
stored response, the fetch listener returns exactly that cached response, so
the network failure is not surfaced to the caller. -/
theorem failed_fetch_served_from_cache (e : String) (cache : CacheStorage)
    (req : Request) (c : Response) (h : cachesMatch cache req = some c) :
    handleFetch (NetResult.rejected e) cache req = FetchOutcome.response c := by
  simp [handleFetch, respondWithPromise, respondWith, h]

/-- Witness for C2 at a concrete request, cache and rejection. -/
theorem failed_fetch_served_from_cache_witness :
    cachesMatch [(Request.mk "GET" "/index.html", Response.mk 200 "cached body")]
        (Request.mk "GET" "/index.html") = some (Response.mk 200 "cached body")
      ∧ handleFetch (NetResult.rejected "offline")
          [(Request.mk "GET" "/index.html", Response.mk 200 "cached body")]
          (Request.mk "GET" "/index.html")
        = FetchOutcome.response (Response.mk 200 "cached body") :=
  ⟨by decide, failed_fetch_served_from_cache "offline" _ _ _ (by decide)⟩

/-- C3: when the live fetch rejects and Cache Storage has no matching entry,
the intercepted request fails: no response is returned to the caller. -/
theorem failed_fetch_cache_miss_fails (e : String) (cache : CacheStorage)
    (req : Request) (h : cachesMatch cache req = none) :
    handleFetch (NetResult.rejected e) cache req = FetchOutcome.failed := by
  simp [handleFetch, respondWithPromise, respondWith, h]

/-- Witness for C3 at a concrete request with an empty cache. -/
theorem failed_fetch_cache_miss_fails_witness :
    cachesMatch [] (Request.mk "GET" "/new-page.html") = none
      ∧ handleFetch (NetResult.rejected "offline") []
          (Request.mk "GET" "/new-page.html") = FetchOutcome.failed :=
  ⟨by decide, failed_fetch_cache_miss_fails "offline" _ _ (by decide)⟩

/-- C4: every delivery of the install event performs the skip-waiting call
exactly once, unconditionally, and two deliveries in sequence each issue the
signal independently, for two calls in total. -/
theorem install_signals_skip_waiting_once (e₁ e₂ : SWEvent) :
    (installHandler e₁).count SWApiCall.skipWaiting = 1
      ∧ ((installHandler e₁) ++ (installHandler e₂)).count SWApiCall.skipWaiting
          = 2 :=
  ⟨rfl, rfl⟩

/-- C5: activation does not complete before the claim-clients operation has
settled: at any time at which activation is complete, clients.claim has already
settled (claim happens-before activation completion). -/
theorem activation_waits_for_claim (settleTime : SWApiCall → Nat) (e : SWEvent)
    (t : Nat) (h : activationCompleteAt settleTime e t) :
    settleTime SWApiCall.claimClients ≤ t :=
  h SWApiCall.claimClients (by simp [activateHandler])

/-- Witness for C5 at a concrete settle-time assignment, event and time. -/
theorem activation_waits_for_claim_witness :
    activationCompleteAt (fun _ => 2) (SWEvent.mk 0) 5
      ∧ (fun _ : SWApiCall => 2) SWApiCall.claimClients ≤ 5 :=
  ⟨by intro c _; exact (by decide : (2 : Nat) ≤ 5),
    activation_waits_for_claim (fun _ => 2) (SWEvent.mk 0) 5
      (by intro c _; exact (by decide : (2 : Nat) ≤ 5))⟩

/-- C6: the routing outcome is a pure function of the request, the network
behavior and the cache contents: the same request, placed at any position of
any two runs under the same network behavior and the same initial cache,
produces the identical outcome. -/
theorem routing_outcome_pure (net : Request → NetResult) (cache : CacheStorage)
    (pre₁ post₁ pre₂ post₂ : List Request) (req : Request) :
    (processRequests net cache (pre₁ ++ req :: post₁)).1[pre₁.length]?
      = (processRequests net cache (pre₂ ++ req :: post₂)).1[pre₂.length]? := by
  have h : ∀ (p q : List Request),
      (processRequests net cache (p ++ req :: q)).1[p.length]?
        = some (handleFetch (net req) cache req) := by
    intro p q
    rw [processRequests_eq]
    simp only [List.map_append, List.map_cons]
    rw [List.getElem?_append_right (by simp)]
    simp
  rw [h pre₁ post₁, h pre₂ post₂]

/-- C7: handling a request never mutates Cache Storage nor retains any state:
after any run, the cache equals the initial cache, and every outcome of the run
is the pure routing function of the initial cache alone, so the handling of one
request cannot affect a later one. -/
theorem routing_frame_effect (net : Request → NetResult) (cache : CacheStorage)
    (rs : List Request) :
    (processRequests net cache rs).2 = cache
      ∧ (processRequests net cache rs).1
          = rs.map (fun r => handleFetch (net r) cache r) := by
  rw [processRequests_eq]
  exact ⟨rfl, rfl⟩

/-- C8: each launch script's behavior depends on nothing in the environment but
PORT and WORKER, and each uses a default port when PORT is unset: 10000 for
start.sh, 8000 for the three unnamed scripts. -/
theorem launch_scripts_surface :
    (∀ env env' : ShellEnv, env.port = env'.port → env.worker = env'.worker →
        startSh env = startSh env' ∧ launchScriptA env = launchScriptA env'
          ∧ launchScriptB env = launchScriptB env'
          ∧ launchScriptC env = launchScriptC env')
      ∧ (∀ others, (startSh (ShellEnv.mk none none others)).command
            = LaunchCmd.uvicorn "agencyvault_app.main:app" none "0.0.0.0" "10000")
      ∧ (∀ others, (launchScriptA (ShellEnv.mk none none others)).command
            = LaunchCmd.uvicorn "agencyvault_app.main:app" none "0.0.0.0" "8000")
      ∧ (∀ others, (launchScriptB (ShellEnv.mk none none others)).command
            = LaunchCmd.uvicorn "main:app" (some "/opt/render/project/src")
                "0.0.0.0" "8000")
      ∧ (∀ others, (launchScriptC (ShellEnv.mk none none others)).command
            = LaunchCmd.uvicorn "agencyvault_app.main:app" none "0.0.0.0" "8000") := by
  refine ⟨?_, fun _ => rfl, fun _ => rfl, fun _ => rfl, fun _ => rfl⟩
  intro env env' hp hw
  refine ⟨?_, ?_, ?_, ?_⟩ <;> simp [startSh, launchScriptA, launchScriptB,
    launchScriptC, hp, hw]

/-- Witness for C8: two environments differing only in other variables launch
identically. -/
theorem launch_scripts_surface_witness :
    startSh (ShellEnv.mk (some "9000") none [])
      = startSh (ShellEnv.mk (some "9000") none [("HOME", "/root")]) :=
  (launch_scripts_surface.1 (ShellEnv.mk (some "9000") none [])
    (ShellEnv.mk (some "9000") none [("HOME", "/root")]) rfl rfl).1

/-- C9: when the live fetch rejects and the cache has no matching entry, the
promise passed to event.respondWith does not reject: it resolves with the cache
lookup miss value (undefined), and the caller-visible failure arises from
responding with that empty value. -/
theorem miss_promise_resolves_undefined (e : String) (cache : CacheStorage)
    (req : Request) (h : cachesMatch cache req = none) :
    respondWithPromise (NetResult.rejected e) cache req
      = PromiseOutcome.resolved none := by
  simp [respondWithPromise, h]

/-- Witness for C9 at a concrete request with an empty cache. -/
theorem miss_promise_resolves_undefined_witness :
    cachesMatch [] (Request.mk "GET" "/new-page.html") = none
      ∧ respondWithPromise (NetResult.rejected "offline") []
          (Request.mk "GET" "/new-page.html") = PromiseOutcome.resolved none :=
  ⟨by decide, miss_promise_resolves_undefined "offline" _ _ (by decide)⟩

/-- C10: the fallback outcome is independent of the rejection reason: two runs
in which the live fetch for the same request rejects with different error
values, over equal cache contents, produce the identical caller-visible
outcome (the catch handler discards the reason). -/
theorem fallback_ignores_error_identity (e₁ e₂ : String) (cache : CacheStorage)
    (req : Request) :
    handleFetch (NetResult.rejected e₁) cache req
      = handleFetch (NetResult.rejected e₂) cache req :=
  rfl

end AgencyVault
